import Mathlib

/-!
Shallow embedding of the dubbo-observable metrics core.

Source files modelled here:
* `src/qps-counter.ts` (class `QpsCounter`): a per-second bucket map of event
  counts, a periodic sweep that evicts buckets older than 5 seconds, and a
  one-second-lagged rate reader `getQps`.
* `src/meter-collector.ts` (classes `MeterCollector`,
  `ProviderMeterCollector`, `ConsumerMeterCollector`): a handle cache over an
  external metrics backend plus provider and consumer facades that wire
  request events into counters and a lazily created `QpsCounter`.
* `src/observable.ts` (`validateOpenTelemetryOption`): configuration
  defaulting for the SDK lifecycle wrapper.

Modelling conventions:
* The JavaScript object `{ [key: string]: number }` used as the bucket store
  is embedded as an association list `List (Int × Nat)` with at most one
  entry per key in reachable states; `assocGet`/`assocSet` mirror property
  read and property write.
* Wall-clock time is passed explicitly: each method that calls
  `this.currentSecond()` in the source takes the value of `currentSecond()`
  at the moment of the call as an `Int` argument. `currentSecond` itself is
  embedded as flooring division of milliseconds by 1000.
* JavaScript truthiness tests on numbers (`if (this.counter[cs])`,
  `if (!this.counter[cs])`) are embedded via `truthyNum`, which is false
  exactly on an absent key or a stored 0.
* Backend meters and metric handles are opaque: a `Meter` is a pair of
  creation oracles returning `Option Nat` handle identifiers (`none` models
  a failed creation), and handle identity is identity of the `Nat` id.
* Side effects on the external backend (counter adds, observable-callback
  registrations, creator invocations) are returned as explicit effect data
  alongside the successor state.
-/

/-- Read a key from a string-keyed JavaScript object embedded as an
association list: the value at the first matching key, or `none` when the
key is absent. -/
def assocGet {α β : Type} [DecidableEq α] (m : List (α × β)) (k : α) : Option β :=
  match m with
  | [] => none
  | (k₀, v₀) :: rest => if k₀ = k then some v₀ else assocGet rest k

/-- Write a key on a string-keyed JavaScript object embedded as an
association list: overwrite the first matching entry, or append a new entry
when the key is absent. -/
def assocSet {α β : Type} [DecidableEq α] (m : List (α × β)) (k : α) (v : β) :
    List (α × β) :=
  match m with
  | [] => [(k, v)]
  | (k₀, v₀) :: rest => if k₀ = k then (k, v) :: rest else (k₀, v₀) :: assocSet rest k v

/-- Truthiness of a JavaScript number read from an object: an absent key
(`undefined`) and a stored `0` are falsy, every other count is truthy. -/
def truthyNum (v : Option Nat) : Bool :=
  match v with
  | none => false
  | some n => n != 0

/-- Embedding of `QpsCounter.currentSecond`:
`Math.floor(new Date().getTime() / 1000)`, with the millisecond clock value
passed explicitly. `Int.fdiv` is flooring division, as `Math.floor` is. -/
def currentSecond (nowMillis : Int) : Int :=
  Int.fdiv nowMillis 1000

/-- State of a `QpsCounter` instance: the private bucket map `counter` and
whether the `setInterval` sweep timer registered by the constructor is still
active (`clearInterval` has not been called). -/
structure QpsCounter where
  counter : List (Int × Nat)
  intervalActive : Bool
  deriving DecidableEq, Repr

namespace QpsCounter

/-- Embedding of `new QpsCounter()`: the bucket map starts empty and the
constructor registers the periodic sweep timer. -/
def init : QpsCounter :=
  { counter := [], intervalActive := true }

/-- Embedding of the sweep callback the constructor passes to `setInterval`:
with `cs` the value of `currentSecond()` when the callback runs, delete every
bucket whose key `k` satisfies `k < cs - 5` and keep all others. -/
def sweep (q : QpsCounter) (cs : Int) : QpsCounter :=
  { q with counter := q.counter.filter (fun kv => !(decide (kv.1 < cs - 5))) }

/-- Embedding of `QpsCounter.stop`: `clearInterval(this.intervalId)`
deactivates the sweep timer and changes nothing else. -/
def stop (q : QpsCounter) : QpsCounter :=
  { q with intervalActive := false }

/-- Embedding of `QpsCounter.getQps`, with `now` the value of
`currentSecond()` at the call: read the bucket for `now - 1`; return it when
the read is truthy, otherwise `0`. The source method performs no writes. -/
def getQps (q : QpsCounter) (now : Int) : Nat :=
  let cs := now - 1
  if truthyNum (assocGet q.counter cs) then
    (assocGet q.counter cs).getD 0
  else
    0

/-- Embedding of `QpsCounter.increment`, with `now` the value of
`currentSecond()` at the call: when the bucket read for `now` is falsy the
bucket is set to `1`, otherwise it is incremented by one. -/
def increment (q : QpsCounter) (now : Int) : QpsCounter :=
  if !(truthyNum (assocGet q.counter now)) then
    { q with counter := assocSet q.counter now 1 }
  else
    { q with counter := assocSet q.counter now ((assocGet q.counter now).getD 0 + 1) }

/-- Iterated `increment`: `n` calls to `increment`, all during the second
`now`. -/
def incrementN (q : QpsCounter) (now : Int) : Nat → QpsCounter
  | 0 => q
  | n + 1 => (q.incrementN now n).increment now

end QpsCounter

section AssocLemmas

variable {α β : Type} [DecidableEq α]

theorem assocGet_assocSet_self (m : List (α × β)) (k : α) (v : β) :
    assocGet (assocSet m k v) k = some v := by
  induction m with
  | nil => simp [assocGet, assocSet]
  | cons hd tl ih =>
    obtain ⟨k₀, v₀⟩ := hd
    by_cases h : k₀ = k
    · simp [assocGet, assocSet, h]
    · simp [assocGet, assocSet, h, ih]

theorem assocGet_assocSet_ne (m : List (α × β)) (k k' : α) (v : β) (h : k ≠ k') :
    assocGet (assocSet m k v) k' = assocGet m k' := by
  induction m with
  | nil => simp [assocGet, assocSet, h]
  | cons hd tl ih =>
    obtain ⟨k₀, v₀⟩ := hd
    by_cases h₀ : k₀ = k
    · subst h₀
      simp [assocGet, assocSet, h]
    · simp only [assocSet, if_neg h₀, assocGet]
      by_cases h₁ : k₀ = k'
      · simp [h₁]
      · simp [h₁, ih]

theorem mem_assocSet (m : List (α × β)) (k : α) (v : β) (p : α × β)
    (hp : p ∈ assocSet m k v) : p = (k, v) ∨ p ∈ m := by
  induction m with
  | nil =>
    simp [assocSet] at hp
    exact Or.inl hp
  | cons hd tl ih =>
    obtain ⟨k₀, v₀⟩ := hd
    by_cases h : k₀ = k
    · simp only [assocSet, if_pos h] at hp
      rcases List.mem_cons.mp hp with h₁ | h₁
      · exact Or.inl h₁
      · exact Or.inr (List.mem_cons_of_mem _ h₁)
    · simp only [assocSet, if_neg h] at hp
      rcases List.mem_cons.mp hp with h₁ | h₁
      · exact Or.inr (h₁ ▸ List.mem_cons_self _ _)
      · rcases ih h₁ with h₂ | h₂
        · exact Or.inl h₂
        · exact Or.inr (List.mem_cons_of_mem _ h₂)

theorem assocGet_mem (m : List (α × β)) (k : α) (v : β)
    (h : assocGet m k = some v) : (k, v) ∈ m := by
  induction m with
  | nil => simp [assocGet] at h
  | cons hd tl ih =>
    obtain ⟨k₀, v₀⟩ := hd
    by_cases h₀ : k₀ = k
    · simp only [assocGet, if_pos h₀] at h
      subst h₀
      obtain rfl : v₀ = v := Option.some.inj h
      exact List.mem_cons_self _ _
    · simp only [assocGet, if_neg h₀] at h
      exact List.mem_cons_of_mem _ (ih h)

end AssocLemmas

/-- Opaque model of an OpenTelemetry `Meter`: the two handle-creation
operations the code uses, each returning an opaque handle identifier or
`none` when creation fails. -/
structure Meter where
  createCounter : String → Option Nat
  createObservableCounter : String → Option Nat

/-- State of a `MeterCollector` instance: the `meter` obtained (or not) from
the global provider at construction, and the private `meter_cache` mapping
cache keys to handle identifiers. Both fields are `Option`-typed, as in the
source declarations. -/
structure MeterCollector where
  meter : Option Meter
  meter_cache : Option (List (String × Nat))

namespace MeterCollector

/-- Embedding of the `MeterCollector` constructor: the meter handed back by
the global provider is passed in explicitly (`none` models an unavailable
backend), and the cache starts empty. -/
def create (meter : Option Meter) : MeterCollector :=
  { meter := meter, meter_cache := some [] }

/-- Embedding of `MeterCollector.__getCachedMeter`. Returns the handle (or
`none`), the successor state, and the number of times `creator` was invoked
during the call. Mirrors the source: bail out when `meter` or `meter_cache`
is absent; on a cache miss invoke `creator` and store the handle only when
one was produced; the returned handle is re-read from the cache. -/
def getCachedMeter (s : MeterCollector) (cacheKey : String)
    (creator : Unit → Option Nat) : Option Nat × MeterCollector × Nat :=
  match s.meter, s.meter_cache with
  | none, _ => (none, s, 0)
  | some _, none => (none, s, 0)
  | some _, some cache =>
    match assocGet cache cacheKey with
    | some _ =>
      (assocGet cache cacheKey, s, 0)
    | none =>
      match creator () with
      | some handle =>
        let cache₂ := assocSet cache cacheKey handle
        (assocGet cache₂ cacheKey, { s with meter_cache := some cache₂ }, 1)
      | none => (none, s, 1)

/-- Embedding of `MeterCollector.getCounter`: delegate to the cache with key
`counter-<name>` and a creator that calls `this.meter?.createCounter`. -/
def getCounter (s : MeterCollector) (name : String) :
    Option Nat × MeterCollector × Nat :=
  s.getCachedMeter ("counter-" ++ name)
    (fun _ =>
      match s.meter with
      | some m => m.createCounter name
      | none => none)

/-- Embedding of `MeterCollector.getObservableCounter`: delegate to the
cache with key `observable-counter-<name>` and a creator that calls
`this.meter?.createObservableCounter`. -/
def getObservableCounter (s : MeterCollector) (name : String) :
    Option Nat × MeterCollector × Nat :=
  s.getCachedMeter ("observable-counter-" ++ name)
    (fun _ =>
      match s.meter with
      | some m => m.createObservableCounter name
      | none => none)

/-- Iterated `getCounter` with a fixed name: the final state and the total
number of creator invocations over `k` successive calls. -/
def getCounterTimes (s : MeterCollector) (name : String) : Nat → MeterCollector × Nat
  | 0 => (s, 0)
  | k + 1 =>
    let r := s.getCounter name
    let rest := r.2.1.getCounterTimes name k
    (rest.1, r.2.2 + rest.2)

/-- Iterated `getObservableCounter` with a fixed name: the final state and
the total number of creator invocations over `k` successive calls. -/
def getObservableCounterTimes (s : MeterCollector) (name : String) :
    Nat → MeterCollector × Nat
  | 0 => (s, 0)
  | k + 1 =>
    let r := s.getObservableCounter name
    let rest := r.2.1.getObservableCounterTimes name k
    (rest.1, r.2.2 + rest.2)

/-- Embedding of `MeterCollector.shutdown`: when the cache exists, delete
every key from it; nothing else is assigned. -/
def shutdown (s : MeterCollector) : MeterCollector :=
  match s.meter_cache with
  | some _ => { s with meter_cache := some [] }
  | none => s

end MeterCollector

/-- Backend-visible effects of one call to a facade request method:
whether a counter `add(1, attributes)` reached the backend, whether a fresh
`QpsCounter` was constructed, and whether an observable-counter callback was
registered via `addCallback`. -/
structure RequestEffects where
  addedTotal : Bool
  constructedQps : Bool
  registeredCallback : Bool
  deriving DecidableEq, Repr

/-- State of a `ProviderMeterCollector`: the inherited `MeterCollector`
state, the four handle fields assigned by the constructor, and the lazily
created `qpsCounter`. -/
structure ProviderMeterCollector where
  toMeterCollector : MeterCollector
  providerRequestTotal : Option Nat
  providerRequestSucceedTotal : Option Nat
  providerRequestFailedTotal : Option Nat
  providerRequestQps : Option Nat
  qpsCounter : Option QpsCounter

namespace ProviderMeterCollector

/-- Embedding of the `ProviderMeterCollector` constructor: run the base
constructor, then eagerly request the three counters and the qps observable
counter, threading the cache state. `qpsCounter` starts absent. -/
def create (meter : Option Meter) : ProviderMeterCollector :=
  let s₀ := MeterCollector.create meter
  let r₁ := s₀.getCounter "dubbo_provider_requests_total"
  let r₂ := r₁.2.1.getCounter "dubbo_provider_requests_succeed_total"
  let r₃ := r₂.2.1.getCounter "dubbo_provider_requests_failed_total"
  let r₄ := r₃.2.1.getObservableCounter "dubbo_provider_qps_total"
  { toMeterCollector := r₄.2.1
    providerRequestTotal := r₁.1
    providerRequestSucceedTotal := r₂.1
    providerRequestFailedTotal := r₃.1
    providerRequestQps := r₄.1
    qpsCounter := none }

/-- Embedding of `ProviderMeterCollector.providerRequest`, with `now` the
value of `currentSecond()` during the call: add to the total counter when
its handle exists; when `qpsCounter` is undefined construct one, store it,
and register the observing callback when the qps handle exists; finally
increment the (now present) `qpsCounter`. -/
def providerRequest (s : ProviderMeterCollector) (now : Int) :
    ProviderMeterCollector × RequestEffects :=
  match s.qpsCounter with
  | some q =>
    ({ s with qpsCounter := some (q.increment now) },
     { addedTotal := s.providerRequestTotal.isSome
       constructedQps := false
       registeredCallback := false })
  | none =>
    ({ s with qpsCounter := some (QpsCounter.init.increment now) },
     { addedTotal := s.providerRequestTotal.isSome
       constructedQps := true
       registeredCallback := s.providerRequestQps.isSome })

/-- Embedding of `ProviderMeterCollector.providerRequestSucceed`: add to the
succeed counter when its handle exists; the instance state is untouched. -/
def providerRequestSucceed (s : ProviderMeterCollector) :
    ProviderMeterCollector × Bool :=
  (s, s.providerRequestSucceedTotal.isSome)

/-- Embedding of `ProviderMeterCollector.providerRequestFailed`: add to the
failed counter when its handle exists; the instance state is untouched. -/
def providerRequestFailed (s : ProviderMeterCollector) :
    ProviderMeterCollector × Bool :=
  (s, s.providerRequestFailedTotal.isSome)

/-- Embedding of the `super.shutdown()` call inside
`ProviderMeterCollector.shutdown`: the base method only touches the
inherited cache. -/
def superShutdown (s : ProviderMeterCollector) : ProviderMeterCollector :=
  { s with toMeterCollector := s.toMeterCollector.shutdown }

/-- Embedding of `ProviderMeterCollector.shutdown`: `super.shutdown()`
followed by `this.qpsCounter?.stop()`. -/
def shutdown (s : ProviderMeterCollector) : ProviderMeterCollector :=
  let s₁ := s.superShutdown
  { s₁ with qpsCounter := s₁.qpsCounter.map QpsCounter.stop }

/-- Iterated `providerRequest` over a list of call times: final state,
total number of `QpsCounter` constructions, and total number of callback
registrations. -/
def providerRequestTimes (s : ProviderMeterCollector) :
    List Int → ProviderMeterCollector × Nat × Nat
  | [] => (s, 0, 0)
  | t :: ts =>
    let r := s.providerRequest t
    let rest := r.1.providerRequestTimes ts
    (rest.1,
     (if r.2.constructedQps then 1 else 0) + rest.2.1,
     (if r.2.registeredCallback then 1 else 0) + rest.2.2)

end ProviderMeterCollector

/-- State of a `ConsumerMeterCollector`: same shape as the provider facade
with consumer-prefixed metric handles. -/
structure ConsumerMeterCollector where
  toMeterCollector : MeterCollector
  consumerRequestTotal : Option Nat
  consumerRequestSucceedTotal : Option Nat
  consumerRequestFailedTotal : Option Nat
  consumerRequestQps : Option Nat
  qpsCounter : Option QpsCounter

namespace ConsumerMeterCollector

/-- Embedding of the `ConsumerMeterCollector` constructor: run the base
constructor, then eagerly request the three counters and the qps observable
counter, threading the cache state. `qpsCounter` starts absent. -/
def create (meter : Option Meter) : ConsumerMeterCollector :=
  let s₀ := MeterCollector.create meter
  let r₁ := s₀.getCounter "dubbo_consumer_requests_total"
  let r₂ := r₁.2.1.getCounter "dubbo_consumer_requests_succeed_total"
  let r₃ := r₂.2.1.getCounter "dubbo_consumer_requests_failed_total"
  let r₄ := r₃.2.1.getObservableCounter "dubbo_consumer_qps_total"
  { toMeterCollector := r₄.2.1
    consumerRequestTotal := r₁.1
    consumerRequestSucceedTotal := r₂.1
    consumerRequestFailedTotal := r₃.1
    consumerRequestQps := r₄.1
    qpsCounter := none }

/-- Embedding of `ConsumerMeterCollector.consumerRequest`, mirroring
`providerRequest` on the consumer metric names. -/
def consumerRequest (s : ConsumerMeterCollector) (now : Int) :
    ConsumerMeterCollector × RequestEffects :=
  match s.qpsCounter with
  | some q =>
    ({ s with qpsCounter := some (q.increment now) },
     { addedTotal := s.consumerRequestTotal.isSome
       constructedQps := false
       registeredCallback := false })
  | none =>
    ({ s with qpsCounter := some (QpsCounter.init.increment now) },
     { addedTotal := s.consumerRequestTotal.isSome
       constructedQps := true
       registeredCallback := s.consumerRequestQps.isSome })

/-- Embedding of `ConsumerMeterCollector.consumerRequestSucceed`: add to the
succeed counter when its handle exists; the instance state is untouched. -/
def consumerRequestSucceed (s : ConsumerMeterCollector) :
    ConsumerMeterCollector × Bool :=
  (s, s.consumerRequestSucceedTotal.isSome)

/-- Embedding of `ConsumerMeterCollector.consumerRequestFailed`: add to the
failed counter when its handle exists; the instance state is untouched. -/
def consumerRequestFailed (s : ConsumerMeterCollector) :
    ConsumerMeterCollector × Bool :=
  (s, s.consumerRequestFailedTotal.isSome)

/-- Embedding of the `super.shutdown()` call inside
`ConsumerMeterCollector.shutdown`. -/
def superShutdown (s : ConsumerMeterCollector) : ConsumerMeterCollector :=
  { s with toMeterCollector := s.toMeterCollector.shutdown }

/-- Embedding of `ConsumerMeterCollector.shutdown`: `super.shutdown()`
followed by `this.qpsCounter?.stop()`. -/
def shutdown (s : ConsumerMeterCollector) : ConsumerMeterCollector :=
  let s₁ := s.superShutdown
  { s₁ with qpsCounter := s₁.qpsCounter.map QpsCounter.stop }

/-- Iterated `consumerRequest` over a list of call times: final state,
total number of `QpsCounter` constructions, and total number of callback
registrations. -/
def consumerRequestTimes (s : ConsumerMeterCollector) :
    List Int → ConsumerMeterCollector × Nat × Nat
  | [] => (s, 0, 0)
  | t :: ts =>
    let r := s.consumerRequest t
    let rest := r.1.consumerRequestTimes ts
    (rest.1,
     (if r.2.constructedQps then 1 else 0) + rest.2.1,
     (if r.2.registeredCallback then 1 else 0) + rest.2.2)

end ConsumerMeterCollector

/-- Model of the `NodeSDKConfiguration` object as this code touches it: the
`serviceName` field and the remaining caller-supplied configuration entries,
modelled opaquely as key-value pairs. JavaScript object spread distinguishes
a key that is absent from a key present with value `undefined`, so
`serviceName` is doubly optional: the outer `Option` is key presence
(`none` = no `serviceName` key on the object), the inner `Option` is the
value (`none` = the key holds `undefined`). -/
structure NodeSDKConfiguration where
  serviceName : Option (Option String)
  entries : List (String × String)
  deriving DecidableEq, Repr

/-- Model of `ObservableOptions`: the `enable` flag and the optional nested
`configuration` object. -/
structure ObservableOptions where
  enable : Option Bool
  configuration : Option NodeSDKConfiguration
  deriving DecidableEq, Repr

/-- Embedding of `validateOpenTelemetryOption`: build
`{ serviceName: options?.configuration?.serviceName ?? "Dubbo",
   ...options?.configuration }`.
`callerName` is the optional-chained read `options?.configuration?.serviceName`
seen as a key: `none` when the chain breaks or the key is absent, `some v`
when the key is present holding `v` (possibly `undefined`). The `??`
operator yields the string `"Dubbo"` whenever that chained read is nullish —
including a key present with value `undefined`. The trailing spread then
copies every own key of the caller configuration, `undefined`-valued keys
included, over the literal field, so a present `serviceName` key always
wins, even when it holds `undefined`. -/
def validateOpenTelemetryOption (options : Option ObservableOptions) :
    NodeSDKConfiguration :=
  let cfg := options.bind (fun o => o.configuration)
  let callerName := cfg.bind (fun c => c.serviceName)
  let defaulted : String :=
    match callerName with
    | some (some s) => s
    | _ => "Dubbo"
  { serviceName :=
      match callerName with
      | none => some (some defaulted)
      | some v => some v
    entries :=
      match cfg with
      | some c => c.entries
      | none => [] }

/-- Reachability of a `QpsCounter` state: the constructor state followed by
any interleaving of `increment` calls, sweep-timer firings and `stop`. -/
inductive QpsReachable : QpsCounter → Prop where
  | base : QpsReachable QpsCounter.init
  | step_increment (q : QpsCounter) (now : Int) :
      QpsReachable q → QpsReachable (q.increment now)
  | step_sweep (q : QpsCounter) (cs : Int) :
      QpsReachable q → QpsReachable (q.sweep cs)
  | step_stop (q : QpsCounter) :
      QpsReachable q → QpsReachable q.stop

/-- Every count stored in the bucket map is strictly positive. -/
def posBuckets (q : QpsCounter) : Prop :=
  ∀ p ∈ q.counter, 0 < p.2

/-- The truthiness test inside `getQps` is equivalent to a plain read of the
bucket for the previous second with default `0`. -/
def qpsReadsPlainly (q : QpsCounter) : Prop :=
  ∀ now : Int, q.getQps now = (assocGet q.counter (now - 1)).getD 0

/-- Every bucket key already recorded lies at or before the second `cs`. -/
def keysAtMost (q : QpsCounter) (cs : Int) : Prop :=
  ∀ p ∈ q.counter, p.1 ≤ cs

/-- Every bucket key lies in the trailing window `[cs - 5, cs]`. -/
def withinWindow (q : QpsCounter) (cs : Int) : Prop :=
  ∀ p ∈ q.counter, cs - 5 ≤ p.1 ∧ p.1 ≤ cs

/-- The sweep at second `cs` removes exactly the entries with key strictly
below `cs - 5` and keeps every other entry. -/
def sweepExact (q : QpsCounter) (cs : Int) : Prop :=
  ∀ k : Int, ∀ v : Nat,
    ((k, v) ∈ (q.sweep cs).counter ↔ ((k, v) ∈ q.counter ∧ ¬(k < cs - 5)))

namespace QpsCounter

theorem increment_get_ne (q : QpsCounter) (now k : Int) (h : now ≠ k) :
    assocGet (q.increment now).counter k = assocGet q.counter k := by
  unfold increment
  cases hb : truthyNum (assocGet q.counter now) <;>
    simp [hb, assocGet_assocSet_ne _ _ _ _ h]

theorem incrementN_get_ne (q : QpsCounter) (now k : Int) (n : Nat) (h : now ≠ k) :
    assocGet (q.incrementN now n).counter k = assocGet q.counter k := by
  induction n with
  | zero => rfl
  | succ n ih =>
    calc assocGet ((q.incrementN now n).increment now).counter k
        = assocGet (q.incrementN now n).counter k := increment_get_ne _ _ _ h
      _ = assocGet q.counter k := ih

theorem incrementN_get_self (q : QpsCounter) (now : Int) (n : Nat)
    (h : assocGet q.counter now = none) :
    assocGet (q.incrementN now n).counter now =
      (match n with | 0 => none | m + 1 => some (m + 1)) := by
  induction n with
  | zero => exact h
  | succ n ih =>
    cases n with
    | zero =>
      show assocGet (q.increment now).counter now = some 1
      unfold increment
      rw [show assocGet (q.incrementN now 0).counter now = none from h] at *
      rw [h]
      simp [truthyNum, assocGet_assocSet_self]
    | succ m =>
      show assocGet ((q.incrementN now (m + 1)).increment now).counter now = some (m + 1 + 1)
      unfold increment
      rw [ih]
      simp [truthyNum, assocGet_assocSet_self]

end QpsCounter

theorem qpsReachable_posBuckets (q : QpsCounter) (h : QpsReachable q) :
    posBuckets q := by
  induction h with
  | base =>
    intro p hp
    simp [QpsCounter.init] at hp
  | step_increment q now _ ih =>
    intro p hp
    unfold QpsCounter.increment at hp
    cases hb : truthyNum (assocGet q.counter now) <;> rw [hb] at hp <;> simp at hp <;>
      rcases mem_assocSet _ _ _ _ hp with h₁ | h₁
    · rw [h₁]
      exact Nat.one_pos
    · exact ih p h₁
    · rw [h₁]
      exact Nat.succ_pos _
    · exact ih p h₁
  | step_sweep q cs _ ih =>
    intro p hp
    exact ih p (List.mem_filter.mp hp).1
  | step_stop q _ ih =>
    exact ih

/-- C10: in every reachable `QpsCounter` state, every stored bucket count is
strictly positive, so the truthiness test inside `getQps` cannot misread a
recorded count of zero as an absent bucket: `getQps` coincides with a plain
read of the bucket for the previous second with default `0` (and the source
method performs no writes, as the embedding of `getQps` as a pure reader
records). -/
theorem qps_buckets_positive (q : QpsCounter) (h : QpsReachable q) :
    posBuckets q ∧ qpsReadsPlainly q := by
  refine ⟨qpsReachable_posBuckets q h, fun now => ?_⟩
  cases hget : assocGet q.counter (now - 1) with
  | none => simp [QpsCounter.getQps, hget, truthyNum]
  | some n =>
    have hpos : 0 < n := qpsReachable_posBuckets q h (now - 1, n) (assocGet_mem _ _ _ hget)
    simp [QpsCounter.getQps, hget, truthyNum, Nat.pos_iff_ne_zero.mp hpos]

/-- Witness for C10 at the concrete reachable state obtained by one
`increment` at second 5 after construction. -/
theorem qps_buckets_positive_witness :
    posBuckets (QpsCounter.init.increment 5) ∧
      qpsReadsPlainly (QpsCounter.init.increment 5) :=
  qps_buckets_positive (QpsCounter.init.increment 5)
    (QpsReachable.step_increment QpsCounter.init 5 QpsReachable.base)

/-- C3: the sweep run at current second `cs` deletes exactly the buckets
with key strictly less than `cs - 5` and no others; consequently, when every
key present was recorded at or before `cs`, every key remaining after the
sweep lies in the trailing window from `cs - 5` to `cs`. -/
theorem qps_sweep_window (q : QpsCounter) (cs : Int) :
    sweepExact q cs ∧ (keysAtMost q cs → withinWindow (q.sweep cs) cs) := by
  constructor
  · intro k v
    unfold QpsCounter.sweep
    constructor
    · intro hmem
      have h := List.mem_filter.mp hmem
      refine ⟨h.1, ?_⟩
      simpa using h.2
    · intro hmem
      refine List.mem_filter.mpr ⟨hmem.1, ?_⟩
      simpa using hmem.2
  · intro hk p hp
    unfold QpsCounter.sweep at hp
    have h := List.mem_filter.mp hp
    have h₂ : ¬(p.1 < cs - 5) := by simpa using h.2
    exact ⟨by omega, hk p h.1⟩

/-- Witness for C3 at a concrete bucket map holding seconds 3, 7 and 10,
swept at current second 10. -/
theorem qps_sweep_window_witness :
    sweepExact { counter := [(3, 2), (7, 1), (10, 4)], intervalActive := true } 10 ∧
      withinWindow
        (QpsCounter.sweep { counter := [(3, 2), (7, 1), (10, 4)], intervalActive := true } 10)
        10 := by
  have h := qps_sweep_window
    { counter := [(3, 2), (7, 1), (10, 4)], intervalActive := true } 10
  exact ⟨h.1, h.2 (by unfold keysAtMost; decide)⟩

/-- Counterexample to C1 as stated: the claim quantifies over every
`QpsCounter`, but on a counter that already recorded one event at second 10,
a single `increment` during the current second 11 leaves `getQps` at 1 (the
bucket of the completed second 10), not 0. -/
theorem qps_lag_claim_counterexample :
    ¬ (QpsCounter.getQps ((QpsCounter.init.increment 10).increment 11) 11 = 0) := by
  decide

/-- C1 amended: for a `QpsCounter` holding no bucket for the previous second
and none for the current second `t`, calling `increment` N times during `t`
leaves `getQps` at 0 while `t` is in progress (it reads only the bucket for
`t - 1`), and once the clock has advanced into second `t + 1`, `getQps`
returns exactly N; a freshly constructed counter reports 0. -/
theorem qps_lag_amended (q : QpsCounter) (t : Int) (n : Nat)
    (h₁ : assocGet q.counter (t - 1) = none)
    (h₂ : assocGet q.counter t = none) :
    QpsCounter.getQps (q.incrementN t n) t = 0 ∧
      QpsCounter.getQps (q.incrementN t n) (t + 1) = n ∧
      QpsCounter.getQps QpsCounter.init t = 0 := by
  refine ⟨?_, ?_, ?_⟩
  · have hne := QpsCounter.incrementN_get_ne q t (t - 1) n (by omega)
    simp [QpsCounter.getQps, hne, h₁, truthyNum]
  · have hself := QpsCounter.incrementN_get_self q t n h₂
    have ht : t + 1 - 1 = t := by omega
    cases n with
    | zero => simp [QpsCounter.getQps, ht, hself, truthyNum]
    | succ m => simp [QpsCounter.getQps, ht, hself, truthyNum]
  · simp [QpsCounter.getQps, QpsCounter.init, assocGet, truthyNum]

/-- Witness for the amended C1: a fresh counter, three increments during
second 100. -/
theorem qps_lag_amended_witness :
    QpsCounter.getQps (QpsCounter.init.incrementN 100 3) 100 = 0 ∧
      QpsCounter.getQps (QpsCounter.init.incrementN 100 3) ((100 : Int) + 1) = 3 ∧
      QpsCounter.getQps QpsCounter.init 100 = 0 :=
  qps_lag_amended QpsCounter.init 100 3 (by decide) (by decide)

namespace MeterCollector

theorem getCachedMeter_hit (s : MeterCollector) (m : Meter) (c : List (String × Nat))
    (key : String) (h : Nat) (cr : Unit → Option Nat)
    (hm : s.meter = some m) (hc : s.meter_cache = some c)
    (hget : assocGet c key = some h) :
    s.getCachedMeter key cr = (some h, s, 0) := by
  unfold getCachedMeter
  rw [hm, hc]
  simp [hget]

theorem getCachedMeter_miss_success (s : MeterCollector) (m : Meter)
    (c : List (String × Nat)) (key : String) (h : Nat) (cr : Unit → Option Nat)
    (hm : s.meter = some m) (hc : s.meter_cache = some c)
    (hget : assocGet c key = none) (hcr : cr () = some h) :
    s.getCachedMeter key cr =
      (some h, { s with meter_cache := some (assocSet c key h) }, 1) := by
  unfold getCachedMeter
  rw [hm, hc]
  simp [hget, hcr, assocGet_assocSet_self]

theorem getCachedMeter_miss_failure (s : MeterCollector) (m : Meter)
    (c : List (String × Nat)) (key : String) (cr : Unit → Option Nat)
    (hm : s.meter = some m) (hc : s.meter_cache = some c)
    (hget : assocGet c key = none) (hcr : cr () = none) :
    s.getCachedMeter key cr = (none, s, 1) := by
  unfold getCachedMeter
  rw [hm, hc]
  simp [hget, hcr]

theorem getCachedMeter_noMeter (s : MeterCollector) (key : String)
    (cr : Unit → Option Nat) (hm : s.meter = none) :
    s.getCachedMeter key cr = (none, s, 0) := by
  unfold getCachedMeter
  rw [hm]

theorem getCounter_hit (s : MeterCollector) (m : Meter) (c : List (String × Nat))
    (name : String) (h : Nat)
    (hm : s.meter = some m) (hc : s.meter_cache = some c)
    (hget : assocGet c ("counter-" ++ name) = some h) :
    s.getCounter name = (some h, s, 0) := by
  unfold getCounter
  exact getCachedMeter_hit s m c _ h _ hm hc hget

theorem getCounter_miss_success (s : MeterCollector) (m : Meter)
    (c : List (String × Nat)) (name : String) (h : Nat)
    (hm : s.meter = some m) (hc : s.meter_cache = some c)
    (hget : assocGet c ("counter-" ++ name) = none)
    (hcr : m.createCounter name = some h) :
    s.getCounter name =
      (some h, { s with meter_cache := some (assocSet c ("counter-" ++ name) h) }, 1) := by
  unfold getCounter
  refine getCachedMeter_miss_success s m c _ h _ hm hc hget ?_
  simp [hm, hcr]

theorem getObservableCounter_hit (s : MeterCollector) (m : Meter)
    (c : List (String × Nat)) (name : String) (h : Nat)
    (hm : s.meter = some m) (hc : s.meter_cache = some c)
    (hget : assocGet c ("observable-counter-" ++ name) = some h) :
    s.getObservableCounter name = (some h, s, 0) := by
  unfold getObservableCounter
  exact getCachedMeter_hit s m c _ h _ hm hc hget

theorem getObservableCounter_miss_success (s : MeterCollector) (m : Meter)
    (c : List (String × Nat)) (name : String) (h : Nat)
    (hm : s.meter = some m) (hc : s.meter_cache = some c)
    (hget : assocGet c ("observable-counter-" ++ name) = none)
    (hcr : m.createObservableCounter name = some h) :
    s.getObservableCounter name =
      (some h,
        { s with meter_cache := some (assocSet c ("observable-counter-" ++ name) h) },
        1) := by
  unfold getObservableCounter
  refine getCachedMeter_miss_success s m c _ h _ hm hc hget ?_
  simp [hm, hcr]

theorem getCounterTimes_of_hit (s : MeterCollector) (m : Meter)
    (c : List (String × Nat)) (name : String) (h : Nat)
    (hm : s.meter = some m) (hc : s.meter_cache = some c)
    (hget : assocGet c ("counter-" ++ name) = some h) :
    ∀ k : Nat, s.getCounterTimes name k = (s, 0) := by
  intro k
  induction k with
  | zero => rfl
  | succ k ih =>
    unfold getCounterTimes
    rw [getCounter_hit s m c name h hm hc hget]
    simp [ih]

theorem getObservableCounterTimes_of_hit (s : MeterCollector) (m : Meter)
    (c : List (String × Nat)) (name : String) (h : Nat)
    (hm : s.meter = some m) (hc : s.meter_cache = some c)
    (hget : assocGet c ("observable-counter-" ++ name) = some h) :
    ∀ k : Nat, s.getObservableCounterTimes name k = (s, 0) := by
  intro k
  induction k with
  | zero => rfl
  | succ k ih =>
    unfold getObservableCounterTimes
    rw [getObservableCounter_hit s m c name h hm hc hget]
    simp [ih]

end MeterCollector

/-- The repeated-`getCounter` invocation total: the backend creator runs at
most once over any number of successive calls with the same name. -/
def counterCreatedOnce (s : MeterCollector) (name : String) : Prop :=
  ∀ k : Nat, (s.getCounterTimes name k).2 ≤ 1

/-- The repeated-`getObservableCounter` invocation total: the backend
creator runs at most once over any number of successive calls with the same
name. -/
def observableCounterCreatedOnce (s : MeterCollector) (name : String) : Prop :=
  ∀ k : Nat, (s.getObservableCounterTimes name k).2 ≤ 1

/-- C4: on a registry with a bound meter and a live cache, whose backend can
create the named counter and observable counter, two successive calls to
`getCounter` return the identical cached handle (likewise for
`getObservableCounter`), and for each of the two cache keys the backend
creator is invoked at most once over any number of repeated calls. -/
theorem meter_caching_idempotent (s : MeterCollector) (m : Meter)
    (c : List (String × Nat)) (name : String)
    (hm : s.meter = some m) (hc : s.meter_cache = some c)
    (hcr : (m.createCounter name).isSome)
    (hocr : (m.createObservableCounter name).isSome) :
    ((s.getCounter name).1.isSome ∧
      ((s.getCounter name).2.1.getCounter name).1 = (s.getCounter name).1 ∧
      (s.getCounter name).2.2 + ((s.getCounter name).2.1.getCounter name).2.2 ≤ 1 ∧
      counterCreatedOnce s name) ∧
    ((s.getObservableCounter name).1.isSome ∧
      ((s.getObservableCounter name).2.1.getObservableCounter name).1 =
        (s.getObservableCounter name).1 ∧
      (s.getObservableCounter name).2.2 +
          ((s.getObservableCounter name).2.1.getObservableCounter name).2.2 ≤ 1 ∧
      observableCounterCreatedOnce s name) := by
  obtain ⟨h₀, hcr⟩ := Option.isSome_iff_exists.mp hcr
  obtain ⟨h₁, hocr⟩ := Option.isSome_iff_exists.mp hocr
  constructor
  · cases hget : assocGet c ("counter-" ++ name) with
    | some h =>
      have hfst := MeterCollector.getCounter_hit s m c name h hm hc hget
      refine ⟨?_, ?_, ?_, ?_⟩
      · rw [hfst]
        rfl
      · rw [hfst, MeterCollector.getCounter_hit s m c name h hm hc hget]
      · rw [hfst, MeterCollector.getCounter_hit s m c name h hm hc hget]
        exact Nat.zero_le 1
      · intro k
        rw [MeterCollector.getCounterTimes_of_hit s m c name h hm hc hget k]
        exact Nat.zero_le 1
    | none =>
      have hfst := MeterCollector.getCounter_miss_success s m c name h₀ hm hc hget hcr
      have hsnd := MeterCollector.getCounter_hit
        { s with meter_cache := some (assocSet c ("counter-" ++ name) h₀) } m
        (assocSet c ("counter-" ++ name) h₀) name h₀ (by simpa using hm) rfl
        (assocGet_assocSet_self c _ h₀)
      refine ⟨?_, ?_, ?_, ?_⟩
      · rw [hfst]
        rfl
      · rw [hfst]
        simpa using congrArg Prod.fst hsnd
      · rw [hfst]
        simp [hsnd]
      · intro k
        cases k with
        | zero => exact Nat.zero_le 1
        | succ k =>
          unfold MeterCollector.getCounterTimes
          rw [hfst]
          simp [MeterCollector.getCounterTimes_of_hit
            { s with meter_cache := some (assocSet c ("counter-" ++ name) h₀) } m
            (assocSet c ("counter-" ++ name) h₀) name h₀ (by simpa using hm) rfl
            (assocGet_assocSet_self c _ h₀) k]
  · cases hget : assocGet c ("observable-counter-" ++ name) with
    | some h =>
      have hfst := MeterCollector.getObservableCounter_hit s m c name h hm hc hget
      refine ⟨?_, ?_, ?_, ?_⟩
      · rw [hfst]
        rfl
      · rw [hfst, MeterCollector.getObservableCounter_hit s m c name h hm hc hget]
      · rw [hfst, MeterCollector.getObservableCounter_hit s m c name h hm hc hget]
        exact Nat.zero_le 1
      · intro k
        rw [MeterCollector.getObservableCounterTimes_of_hit s m c name h hm hc hget k]
        exact Nat.zero_le 1
    | none =>
      have hfst := MeterCollector.getObservableCounter_miss_success s m c name h₁ hm hc
        hget hocr
      have hsnd := MeterCollector.getObservableCounter_hit
        { s with meter_cache := some (assocSet c ("observable-counter-" ++ name) h₁) } m
        (assocSet c ("observable-counter-" ++ name) h₁) name h₁ (by simpa using hm) rfl
        (assocGet_assocSet_self c _ h₁)
      refine ⟨?_, ?_, ?_, ?_⟩
      · rw [hfst]
        rfl
      · rw [hfst]
        simpa using congrArg Prod.fst hsnd
      · rw [hfst]
        simp [hsnd]
      · intro k
        cases k with
        | zero => exact Nat.zero_le 1
        | succ k =>
          unfold MeterCollector.getObservableCounterTimes
          rw [hfst]
          simp [MeterCollector.getObservableCounterTimes_of_hit
            { s with
              meter_cache := some (assocSet c ("observable-counter-" ++ name) h₁) } m
            (assocSet c ("observable-counter-" ++ name) h₁) name h₁ (by simpa using hm)
            rfl (assocGet_assocSet_self c _ h₁) k]

/-- A backend meter whose creations always succeed, for concrete witnesses. -/
def mtrEx : Meter :=
  { createCounter := fun _ => some 1, createObservableCounter := fun _ => some 2 }

/-- A backend meter whose creations always fail, for concrete witnesses. -/
def mtrFail : Meter :=
  { createCounter := fun _ => none, createObservableCounter := fun _ => none }

/-- Witness for C4 on a freshly constructed registry over a working
backend. -/
theorem meter_caching_idempotent_witness :
    (((MeterCollector.create (some mtrEx)).getCounter "requests").1.isSome ∧
      (((MeterCollector.create (some mtrEx)).getCounter "requests").2.1.getCounter
          "requests").1 =
        ((MeterCollector.create (some mtrEx)).getCounter "requests").1 ∧
      ((MeterCollector.create (some mtrEx)).getCounter "requests").2.2 +
          (((MeterCollector.create (some mtrEx)).getCounter "requests").2.1.getCounter
              "requests").2.2 ≤ 1 ∧
      counterCreatedOnce (MeterCollector.create (some mtrEx)) "requests") ∧
    (((MeterCollector.create (some mtrEx)).getObservableCounter "requests").1.isSome ∧
      (((MeterCollector.create (some mtrEx)).getObservableCounter
            "requests").2.1.getObservableCounter "requests").1 =
        ((MeterCollector.create (some mtrEx)).getObservableCounter "requests").1 ∧
      ((MeterCollector.create (some mtrEx)).getObservableCounter "requests").2.2 +
          (((MeterCollector.create (some mtrEx)).getObservableCounter
              "requests").2.1.getObservableCounter "requests").2.2 ≤ 1 ∧
      observableCounterCreatedOnce (MeterCollector.create (some mtrEx)) "requests") :=
  meter_caching_idempotent (MeterCollector.create (some mtrEx)) mtrEx [] "requests"
    rfl rfl (by rfl) (by rfl)

namespace MeterCollector

theorem getCounter_miss_failure (s : MeterCollector) (m : Meter)
    (c : List (String × Nat)) (name : String)
    (hm : s.meter = some m) (hc : s.meter_cache = some c)
    (hget : assocGet c ("counter-" ++ name) = none)
    (hcr : m.createCounter name = none) :
    s.getCounter name = (none, s, 1) := by
  unfold getCounter
  refine getCachedMeter_miss_failure s m c _ _ hm hc hget ?_
  simp [hm, hcr]

theorem getObservableCounter_miss_failure (s : MeterCollector) (m : Meter)
    (c : List (String × Nat)) (name : String)
    (hm : s.meter = some m) (hc : s.meter_cache = some c)
    (hget : assocGet c ("observable-counter-" ++ name) = none)
    (hcr : m.createObservableCounter name = none) :
    s.getObservableCounter name = (none, s, 1) := by
  unfold getObservableCounter
  refine getCachedMeter_miss_failure s m c _ _ hm hc hget ?_
  simp [hm, hcr]

end MeterCollector

/-- C5: `getCounter` and `getObservableCounter` return `none` both when no
meter is bound (state untouched, creator never run) and when the backend
creation yields no handle; in the creation-failure case the cache entry for
the key stays unpopulated — the successor state is the original one — so a
repeated call runs the creator again (one creator invocation on each call).
Both embedded getters are total Lean functions, so no fault is raised. -/
theorem meter_getters_degrade (s s' : MeterCollector) (m : Meter)
    (c : List (String × Nat)) (name : String)
    (hnone : s.meter = none)
    (hm : s'.meter = some m) (hc : s'.meter_cache = some c)
    (hmiss₁ : assocGet c ("counter-" ++ name) = none)
    (hfail₁ : m.createCounter name = none)
    (hmiss₂ : assocGet c ("observable-counter-" ++ name) = none)
    (hfail₂ : m.createObservableCounter name = none) :
    s.getCounter name = (none, s, 0) ∧
      s.getObservableCounter name = (none, s, 0) ∧
      s'.getCounter name = (none, s', 1) ∧
      (s'.getCounter name).2.1.getCounter name = (none, s', 1) ∧
      s'.getObservableCounter name = (none, s', 1) ∧
      (s'.getObservableCounter name).2.1.getObservableCounter name = (none, s', 1) := by
  have h₁ := MeterCollector.getCounter_miss_failure s' m c name hm hc hmiss₁ hfail₁
  have h₂ := MeterCollector.getObservableCounter_miss_failure s' m c name hm hc hmiss₂
    hfail₂
  refine ⟨?_, ?_, h₁, ?_, h₂, ?_⟩
  · unfold MeterCollector.getCounter
    exact MeterCollector.getCachedMeter_noMeter s _ _ hnone
  · unfold MeterCollector.getObservableCounter
    exact MeterCollector.getCachedMeter_noMeter s _ _ hnone
  · rw [h₁]
    exact h₁
  · rw [h₂]
    exact h₂

/-- Witness for C5: a registry without a meter, and one over a backend whose
creations fail. -/
theorem meter_getters_degrade_witness :
    (MeterCollector.create none).getCounter "x" = (none, MeterCollector.create none, 0) ∧
      (MeterCollector.create none).getObservableCounter "x" =
        (none, MeterCollector.create none, 0) ∧
      (MeterCollector.create (some mtrFail)).getCounter "x" =
        (none, MeterCollector.create (some mtrFail), 1) ∧
      ((MeterCollector.create (some mtrFail)).getCounter "x").2.1.getCounter "x" =
        (none, MeterCollector.create (some mtrFail), 1) ∧
      (MeterCollector.create (some mtrFail)).getObservableCounter "x" =
        (none, MeterCollector.create (some mtrFail), 1) ∧
      ((MeterCollector.create (some mtrFail)).getObservableCounter
          "x").2.1.getObservableCounter "x" =
        (none, MeterCollector.create (some mtrFail), 1) :=
  meter_getters_degrade (MeterCollector.create none) (MeterCollector.create (some mtrFail))
    mtrFail [] "x" rfl rfl rfl rfl rfl rfl rfl

/-- Counterexample to C2 as stated: with no meter bound, `providerRequest`
is not free of state changes — on a freshly constructed provider facade it
constructs and stores the internal `QpsCounter`. -/
theorem backend_silent_claim_counterexample :
    (ProviderMeterCollector.create none).qpsCounter = none ∧
      ((ProviderMeterCollector.create none).providerRequest 0).1.qpsCounter ≠ none :=
  ⟨rfl, by decide⟩

/-- C2 amended: when the backend is unavailable, every getter returns an
absent handle with the registry untouched; construction binds no handle; the
succeed and failed event methods are complete no-ops (no state change, no
backend add); and the request event methods perform no backend interaction
(no counter add, no callback registration) and raise no fault — though they
do lazily construct and increment the internal `QpsCounter`. -/
theorem backend_unavailable_silent_degradation (s : MeterCollector) (name : String)
    (now : Int) (p : ProviderMeterCollector) (c : ConsumerMeterCollector)
    (hs : s.meter = none)
    (hp₁ : p.providerRequestTotal = none) (hp₂ : p.providerRequestSucceedTotal = none)
    (hp₃ : p.providerRequestFailedTotal = none) (hp₄ : p.providerRequestQps = none)
    (hc₁ : c.consumerRequestTotal = none) (hc₂ : c.consumerRequestSucceedTotal = none)
    (hc₃ : c.consumerRequestFailedTotal = none) (hc₄ : c.consumerRequestQps = none) :
    s.getCounter name = (none, s, 0) ∧
      s.getObservableCounter name = (none, s, 0) ∧
      (ProviderMeterCollector.create none).providerRequestTotal = none ∧
      (ProviderMeterCollector.create none).providerRequestSucceedTotal = none ∧
      (ProviderMeterCollector.create none).providerRequestFailedTotal = none ∧
      (ProviderMeterCollector.create none).providerRequestQps = none ∧
      (ConsumerMeterCollector.create none).consumerRequestTotal = none ∧
      (ConsumerMeterCollector.create none).consumerRequestSucceedTotal = none ∧
      (ConsumerMeterCollector.create none).consumerRequestFailedTotal = none ∧
      (ConsumerMeterCollector.create none).consumerRequestQps = none ∧
      p.providerRequestSucceed = (p, false) ∧
      p.providerRequestFailed = (p, false) ∧
      (p.providerRequest now).2.addedTotal = false ∧
      (p.providerRequest now).2.registeredCallback = false ∧
      c.consumerRequestSucceed = (c, false) ∧
      c.consumerRequestFailed = (c, false) ∧
      (c.consumerRequest now).2.addedTotal = false ∧
      (c.consumerRequest now).2.registeredCallback = false := by
  refine ⟨?_, ?_, rfl, rfl, rfl, rfl, rfl, rfl, rfl, rfl, ?_, ?_, ?_, ?_, ?_, ?_, ?_, ?_⟩
  · unfold MeterCollector.getCounter
    exact MeterCollector.getCachedMeter_noMeter s _ _ hs
  · unfold MeterCollector.getObservableCounter
    exact MeterCollector.getCachedMeter_noMeter s _ _ hs
  · simp [ProviderMeterCollector.providerRequestSucceed, hp₂]
  · simp [ProviderMeterCollector.providerRequestFailed, hp₃]
  · cases hq : p.qpsCounter <;>
      simp [ProviderMeterCollector.providerRequest, hq, hp₁]
  · cases hq : p.qpsCounter <;>
      simp [ProviderMeterCollector.providerRequest, hq, hp₄]
  · simp [ConsumerMeterCollector.consumerRequestSucceed, hc₂]
  · simp [ConsumerMeterCollector.consumerRequestFailed, hc₃]
  · cases hq : c.qpsCounter <;>
      simp [ConsumerMeterCollector.consumerRequest, hq, hc₁]
  · cases hq : c.qpsCounter <;>
      simp [ConsumerMeterCollector.consumerRequest, hq, hc₄]

/-- Witness for the amended C2 on facades constructed without a backend. -/
theorem backend_unavailable_silent_degradation_witness :
    (MeterCollector.create none).getCounter "x" = (none, MeterCollector.create none, 0) ∧
      (MeterCollector.create none).getObservableCounter "x" =
        (none, MeterCollector.create none, 0) ∧
      (ProviderMeterCollector.create none).providerRequestTotal = none ∧
      (ProviderMeterCollector.create none).providerRequestSucceedTotal = none ∧
      (ProviderMeterCollector.create none).providerRequestFailedTotal = none ∧
      (ProviderMeterCollector.create none).providerRequestQps = none ∧
      (ConsumerMeterCollector.create none).consumerRequestTotal = none ∧
      (ConsumerMeterCollector.create none).consumerRequestSucceedTotal = none ∧
      (ConsumerMeterCollector.create none).consumerRequestFailedTotal = none ∧
      (ConsumerMeterCollector.create none).consumerRequestQps = none ∧
      (ProviderMeterCollector.create none).providerRequestSucceed =
        (ProviderMeterCollector.create none, false) ∧
      (ProviderMeterCollector.create none).providerRequestFailed =
        (ProviderMeterCollector.create none, false) ∧
      ((ProviderMeterCollector.create none).providerRequest 7).2.addedTotal = false ∧
      ((ProviderMeterCollector.create none).providerRequest 7).2.registeredCallback =
        false ∧
      (ConsumerMeterCollector.create none).consumerRequestSucceed =
        (ConsumerMeterCollector.create none, false) ∧
      (ConsumerMeterCollector.create none).consumerRequestFailed =
        (ConsumerMeterCollector.create none, false) ∧
      ((ConsumerMeterCollector.create none).consumerRequest 7).2.addedTotal = false ∧
      ((ConsumerMeterCollector.create none).consumerRequest 7).2.registeredCallback =
        false :=
  backend_unavailable_silent_degradation (MeterCollector.create none) "x" 7
    (ProviderMeterCollector.create none) (ConsumerMeterCollector.create none)
    rfl rfl rfl rfl rfl rfl rfl rfl rfl

theorem ProviderMeterCollector.providerRequestTimes_of_some
    (p : ProviderMeterCollector) (h : p.qpsCounter.isSome) (ts : List Int) :
    (p.providerRequestTimes ts).2 = (0, 0) := by
  induction ts generalizing p with
  | nil => rfl
  | cons t ts ih =>
    obtain ⟨q, hq⟩ := Option.isSome_iff_exists.mp h
    have hrest := ih { p with qpsCounter := some (q.increment t) } (by simp)
    simp [ProviderMeterCollector.providerRequestTimes,
      ProviderMeterCollector.providerRequest, hq, hrest]

theorem ConsumerMeterCollector.consumerRequestTimes_of_some
    (c : ConsumerMeterCollector) (h : c.qpsCounter.isSome) (ts : List Int) :
    (c.consumerRequestTimes ts).2 = (0, 0) := by
  induction ts generalizing c with
  | nil => rfl
  | cons t ts ih =>
    obtain ⟨q, hq⟩ := Option.isSome_iff_exists.mp h
    have hrest := ih { c with qpsCounter := some (q.increment t) } (by simp)
    simp [ConsumerMeterCollector.consumerRequestTimes,
      ConsumerMeterCollector.consumerRequest, hq, hrest]

/-- C6: on a provider or consumer facade whose qps observable handle exists
and whose `QpsCounter` has not been created, any nonempty run of request
events constructs the `QpsCounter` exactly once and registers the observing
callback exactly once, no matter how many events follow; with no request
event, nothing is constructed and no callback is ever registered (so the qps
observable never reports a value), and a freshly constructed facade has no
`QpsCounter`. -/
theorem facade_lazy_single_qps (p : ProviderMeterCollector) (c : ConsumerMeterCollector)
    (mo : Option Meter) (t : Int) (ts : List Int)
    (hp : p.qpsCounter = none) (hpq : p.providerRequestQps.isSome)
    (hc : c.qpsCounter = none) (hcq : c.consumerRequestQps.isSome) :
    (p.providerRequestTimes (t :: ts)).2 = (1, 1) ∧
      (p.providerRequestTimes []).2 = (0, 0) ∧
      (c.consumerRequestTimes (t :: ts)).2 = (1, 1) ∧
      (c.consumerRequestTimes []).2 = (0, 0) ∧
      (ProviderMeterCollector.create mo).qpsCounter = none ∧
      (ConsumerMeterCollector.create mo).qpsCounter = none := by
  refine ⟨?_, rfl, ?_, rfl, rfl, rfl⟩
  · have hrest := ProviderMeterCollector.providerRequestTimes_of_some
      { p with qpsCounter := some (QpsCounter.init.increment t) } (by simp) ts
    simp [ProviderMeterCollector.providerRequestTimes,
      ProviderMeterCollector.providerRequest, hp, hpq, hrest]
  · have hrest := ConsumerMeterCollector.consumerRequestTimes_of_some
      { c with qpsCounter := some (QpsCounter.init.increment t) } (by simp) ts
    simp [ConsumerMeterCollector.consumerRequestTimes,
      ConsumerMeterCollector.consumerRequest, hc, hcq, hrest]

/-- Witness for C6 on facades freshly constructed over a working backend,
with a single request event at second 3. -/
theorem facade_lazy_single_qps_witness :
    ((ProviderMeterCollector.create (some mtrEx)).providerRequestTimes [3]).2 = (1, 1) ∧
      ((ProviderMeterCollector.create (some mtrEx)).providerRequestTimes []).2 = (0, 0) ∧
      ((ConsumerMeterCollector.create (some mtrEx)).consumerRequestTimes [3]).2 = (1, 1) ∧
      ((ConsumerMeterCollector.create (some mtrEx)).consumerRequestTimes []).2 = (0, 0) ∧
      (ProviderMeterCollector.create (some mtrEx)).qpsCounter = none ∧
      (ConsumerMeterCollector.create (some mtrEx)).qpsCounter = none :=
  facade_lazy_single_qps (ProviderMeterCollector.create (some mtrEx))
    (ConsumerMeterCollector.create (some mtrEx)) (some mtrEx) 3 []
    rfl (by rfl) rfl (by rfl)

theorem MeterCollector.shutdown_shutdown (s : MeterCollector) :
    s.shutdown.shutdown = s.shutdown := by
  obtain ⟨mt, mc⟩ := s
  cases mc <;> simp [MeterCollector.shutdown]

/-- C7: `stop` on a `QpsCounter` and `shutdown` on either facade are
idempotent — a second call produces the same released state as the first
(cache already empty, timer already cancelled) and, being total functions,
raises no error. -/
theorem shutdown_idempotent (q : QpsCounter) (p : ProviderMeterCollector)
    (c : ConsumerMeterCollector) :
    q.stop.stop = q.stop ∧
      p.shutdown.shutdown = p.shutdown ∧
      c.shutdown.shutdown = c.shutdown := by
  refine ⟨rfl, ?_, ?_⟩
  · obtain ⟨base, f₁, f₂, f₃, f₄, qc⟩ := p
    cases qc <;>
      simp [ProviderMeterCollector.shutdown, ProviderMeterCollector.superShutdown,
        MeterCollector.shutdown_shutdown, QpsCounter.stop]
  · obtain ⟨base, f₁, f₂, f₃, f₄, qc⟩ := c
    cases qc <;>
      simp [ConsumerMeterCollector.shutdown, ConsumerMeterCollector.superShutdown,
        MeterCollector.shutdown_shutdown, QpsCounter.stop]

/-- C8: the base `shutdown` empties the handle cache (when one exists) and
changes nothing else — the meter binding survives and, applied through the
inherited call on a facade, every facade field including the `QpsCounter` is
untouched; only the facade override additionally stops the owned
`QpsCounter`, and `Option.map` makes it act only when one was created. -/
theorem shutdown_frame (s : MeterCollector) (p : ProviderMeterCollector)
    (c : ConsumerMeterCollector) :
    s.shutdown.meter = s.meter ∧
      s.shutdown.meter_cache = s.meter_cache.map (fun _ => ([] : List (String × Nat))) ∧
      p.superShutdown.qpsCounter = p.qpsCounter ∧
      p.superShutdown.providerRequestTotal = p.providerRequestTotal ∧
      p.superShutdown.providerRequestSucceedTotal = p.providerRequestSucceedTotal ∧
      p.superShutdown.providerRequestFailedTotal = p.providerRequestFailedTotal ∧
      p.superShutdown.providerRequestQps = p.providerRequestQps ∧
      p.superShutdown.toMeterCollector = p.toMeterCollector.shutdown ∧
      p.shutdown.qpsCounter = p.qpsCounter.map QpsCounter.stop ∧
      c.superShutdown.qpsCounter = c.qpsCounter ∧
      c.shutdown.qpsCounter = c.qpsCounter.map QpsCounter.stop := by
  refine ⟨?_, ?_, rfl, rfl, rfl, rfl, rfl, rfl, rfl, rfl, rfl⟩
  · obtain ⟨mt, mc⟩ := s
    cases mc <;> simp [MeterCollector.shutdown]
  · obtain ⟨mt, mc⟩ := s
    cases mc <;> simp [MeterCollector.shutdown]

/-- Counterexample to C9 as stated: a caller configuration whose
`serviceName` key is present holding `undefined` supplies no service name,
yet the trailing spread copies that `undefined` over the `Dubbo` default, so
the resulting service name is `undefined`, not `Dubbo`. -/
theorem validate_option_claim_counterexample :
    (validateOpenTelemetryOption
        (some { enable := none,
                configuration := some { serviceName := some none, entries := [] } })).serviceName =
      some none ∧
      (validateOpenTelemetryOption
          (some { enable := none,
                  configuration := some { serviceName := some none, entries := [] } })).serviceName ≠
        some (some "Dubbo") := by
  exact ⟨rfl, by decide⟩

/-- C9 amended: the validated configuration names the service `Dubbo`
exactly when the caller configuration carries no `serviceName` key (in
particular when no configuration is supplied at all); when the key is
present, its value — a caller-supplied name, or an explicit `undefined`
that the spread copies over the default — is carried through unchanged, and
every other caller configuration entry passes through unchanged. -/
theorem validate_option_service_name_amended (options : Option ObservableOptions) :
    (validateOpenTelemetryOption options).serviceName =
      (match (options.bind fun o => o.configuration).bind (fun c => c.serviceName) with
        | none => some (some "Dubbo")
        | some v => some v) ∧
      (validateOpenTelemetryOption options).entries =
        ((options.bind fun o => o.configuration).map fun c => c.entries).getD [] := by
  cases options with
  | none => simp [validateOpenTelemetryOption]
  | some o =>
    cases ho : o.configuration with
    | none => simp [validateOpenTelemetryOption, ho]
    | some cfg =>
      cases hs : cfg.serviceName with
      | none => simp [validateOpenTelemetryOption, ho, hs]
      | some v => cases v <;> simp [validateOpenTelemetryOption, ho, hs]
